import Mathlib

/-!
Shallow embedding of the `MicrophoneStream` class from `src/index.ts` of the
mic-drop repository, together with theorems settling the specification claims
about its lifecycle, events and backend-fallback behaviour.

The audio context is modelled by its observable fields (`state`, `sampleRate`,
whether it exposes `audioWorklet`); browser/worklet failures are supplied via
an `AttachEnv` record of `Option String` fields, each holding the message of
the exception the corresponding external call would throw (`none` = the call
succeeds).  Nodes (`audioInput`, `processor`, `workletNode`) are modelled by
presence booleans, external side effects by an explicit `Eff` list, and the
dispatched events by an `Ev` list.
-/

namespace MicDrop

/-- The `state` attribute of a Web Audio `AudioContext`. -/
inductive CtxState
  | running
  | suspended
  | closed
deriving DecidableEq, Repr

/-- The observable part of an `AudioContext` used by the library:
`state`, `sampleRate`, and whether the object has an `audioWorklet` member. -/
structure Ctx where
  state : CtxState
  sampleRate : Nat
  hasAudioWorklet : Bool
deriving DecidableEq, Repr

/-- Events dispatched by a `MicrophoneStream` (the `MicrophoneStreamEvents`
map in the source): `data`, `format` with its `AudioFormat` payload,
`error` with its message, and `close`. -/
inductive Ev
  | format (channels bitDepth sampleRate : Nat) (signed float : Bool)
  | data
  | error (msg : String)
  | close
deriving DecidableEq, Repr

/-- External side effects performed on collaborator objects (node
disconnects, context suspend/close, media-track stop). -/
inductive Eff
  | disconnectInput
  | disconnectProcessor
  | disconnectWorklet
  | ctxSuspend
  | ctxClose
  | trackStop
deriving DecidableEq, Repr

/-- The mutable fields of a `MicrophoneStream` instance.  Node references are
modelled by booleans (`true` = the field is non-null); `processorHandlerSet` /
`workletHandlerSet` record whether an audio callback was wired on the node
(`setupMockAudioProcessing` stores a processor whose `onaudioprocess` is
null, so its flag stays `false`); `mockIntervalActive` models the
`setInterval` data generator of `setupMockAudioProcessing`, which is cleared
by the `close`-event listener that function registers; `spCreated` counts
`createScriptProcessor` constructions (the spec's backend-construction
counter); `ctxProvided` records whether the context came from the options
(the code itself stores no such flag — it is kept here purely to state
ownership claims); `pendingFormat` models the one `setTimeout` scheduled by
the constructor to dispatch the `format` event. -/
structure MicState where
  ctx : Ctx
  ctxProvided : Bool
  objectMode : Bool
  bufferSize : Nat
  allowScriptProcessorFallback : Bool
  isNodeEnvironment : Bool
  workletSupported : Bool
  stream : Bool
  audioInput : Bool
  processor : Bool
  processorHandlerSet : Bool
  workletNode : Bool
  workletHandlerSet : Bool
  recording : Bool
  pendingFormat : Bool
  mockIntervalActive : Bool
  spCreated : Nat
deriving DecidableEq, Repr

/-- The constructor options (`MicrophoneStreamOptions`), omitting the
optional initial `stream` (modelled as a `setStream` trace operation). -/
structure Options where
  objectMode : Bool := false
  bufferSize : Nat := 4096
  context : Option Ctx := none
  allowScriptProcessorFallback : Bool := true
deriving DecidableEq, Repr

/-- Host-environment facts the constructor probes: whether we run under
Node, and the context that would be created when none is supplied. -/
structure HostEnv where
  isNode : Bool
  defaultCtx : Ctx
deriving DecidableEq, Repr

/-- The constructor: stores the options, keeps the supplied context or
creates one, computes `workletSupported = !isNode && 'audioWorklet' in ctx`,
starts with `recording = true` and all node fields null, and schedules one
asynchronous `format` dispatch (`pendingFormat = true`); it dispatches no
event synchronously. -/
def init (h : HostEnv) (o : Options) : MicState :=
  let ctx := o.context.getD h.defaultCtx
  { ctx := ctx
    ctxProvided := o.context.isSome
    objectMode := o.objectMode
    bufferSize := o.bufferSize
    allowScriptProcessorFallback := o.allowScriptProcessorFallback
    isNodeEnvironment := h.isNode
    workletSupported := !h.isNode && ctx.hasAudioWorklet
    stream := false
    audioInput := false
    processor := false
    processorHandlerSet := false
    workletNode := false
    workletHandlerSet := false
    recording := true
    pendingFormat := true
    mockIntervalActive := false
    spCreated := 0 }

/-- Outcomes of the external calls made during an attach: each field holds
`some msg` when the corresponding call throws (with that message). -/
structure AttachEnv where
  earlyMockThrow : Option String := none
  resumeFails : Option String := none
  createSourceThrows : Option String := none
  addModuleFails : Option String := none
  nodeCtorFails : Option String := none
  connectFails : Option String := none
deriving DecidableEq, Repr

/-- Error message thrown by `setupAudioWorklet` on a closed context. -/
def workletClosedMsg : String :=
  "Cannot set up AudioWorklet: AudioContext is closed"

/-- Error message thrown by `setStream` when AudioWorklet setup failed and
the ScriptProcessorNode fallback is disabled. -/
def fallbackDisabledSetupMsg : String :=
  "AudioWorklet setup failed and ScriptProcessorNode fallback is disabled. Consider enabling allowScriptProcessorFallback if you need support for browsers without AudioWorklet."

/-- Error message thrown by `setStream` when AudioWorklet is unsupported and
the ScriptProcessorNode fallback is disabled. -/
def fallbackDisabledUnsupportedMsg : String :=
  "AudioWorklet is not supported by this browser and ScriptProcessorNode fallback is disabled. Consider enabling allowScriptProcessorFallback if you need support for browsers without AudioWorklet."

/-- Whether the first list is a leading segment of the second. -/
def charsLeading : List Char → List Char → Bool
  | [], _ => true
  | _ :: _, [] => false
  | p :: ps, c :: cs => p == c && charsLeading ps cs

/-- Whether the first list occurs contiguously inside the second. -/
def charsInside (pat : List Char) : List Char → Bool
  | [] => charsLeading pat []
  | c :: cs => charsLeading pat (c :: cs) || charsInside pat cs

/-- Whether an error message contains the phrase naming the disabled
ScriptProcessorNode fallback. -/
def mentionsFallbackDisabled (m : String) : Bool :=
  charsInside ("ScriptProcessorNode fallback is disabled".data) m.data

/-- `setupMockAudioProcessing`: installs a mock stream, input and processor
(the mock processor's `onaudioprocess` is null) and starts the interval
emitting mock data blocks; the interval is cleared by a `close` listener. -/
def setupMockAudioProcessing (s : MicState) : MicState :=
  { s with stream := true, audioInput := true, processor := true,
           mockIntervalActive := true }

/-- `setupScriptProcessor`: no-op when `audioInput` is null; otherwise
constructs a ScriptProcessorNode, connects it, and wires `onaudioprocess`. -/
def setupScriptProcessor (s : MicState) : MicState :=
  if s.audioInput then
    { s with processor := true, processorHandlerSet := true,
             spCreated := s.spCreated + 1 }
  else s

/-- `setupAudioWorklet`: no-op when `audioInput` is null; throws on a closed
context; resumes a suspended context (propagating a resume failure); then
`addModule`, `new AudioWorkletNode` and the connect calls each may throw.
Note the worklet-node field is assigned before the connect calls, so a
connect failure leaves `workletNode` non-null. -/
def setupAudioWorklet (s : MicState) (e : AttachEnv) :
    MicState × Except String Unit :=
  if !s.audioInput then (s, .ok ())
  else if s.ctx.state = .closed then (s, .error workletClosedMsg)
  else
    match e.resumeFails with
    | some m => if s.ctx.state = .suspended then (s, .error m) else
        setupAudioWorkletBody s e
    | none =>
        let s := if s.ctx.state = .suspended then
                   { s with ctx := { s.ctx with state := .running } }
                 else s
        setupAudioWorkletBody s e
where
  /-- The registration/creation/connection part of `setupAudioWorklet`. -/
  setupAudioWorkletBody (s : MicState) (e : AttachEnv) :
      MicState × Except String Unit :=
    match e.addModuleFails with
    | some m => (s, .error m)
    | none =>
      match e.nodeCtorFails with
      | some m => (s, .error m)
      | none =>
        let s := { s with workletNode := true }
        match e.connectFails with
        | some m => (s, .error m)
        | none => ({ s with workletHandlerSet := true }, .ok ())

/-- `setStream(stream)`: the mock-detection prelude (which dispatches and
rethrows when the sniffed `createMediaStreamSource` throws), the Node-
environment mock path, then the browser path inside a try/catch whose catch
dispatches an `error` event carrying the thrown message and rethrows.
Returns the updated state, the promise outcome, and the dispatched events. -/
def setStream (s : MicState) (e : AttachEnv) :
    MicState × Except String Unit × List Ev :=
  match e.earlyMockThrow with
  | some m => (s, .error m, [.error m])
  | none =>
    if s.isNodeEnvironment then
      (setupMockAudioProcessing s, .ok (), [])
    else
      match setStreamTry s e with
      | (s', .ok _) => (s', .ok (), [])
      | (s', .error m) => (s', .error m, [.error m])
where
  /-- Body of the `try` block of `setStream`: resume a suspended context,
  store the stream, create the source node, then select and set up the
  backend, applying the ScriptProcessorNode fallback policy. -/
  setStreamTry (s : MicState) (e : AttachEnv) :
      MicState × Except String Unit :=
    match e.resumeFails with
    | some m =>
      if s.ctx.state = .suspended then (s, .error m)
      else setStreamAfterResume s e
    | none =>
      let s := if s.ctx.state = .suspended then
                 { s with ctx := { s.ctx with state := .running } }
               else s
      setStreamAfterResume s e
  /-- `setStream` after the context resume: source creation and backend
  selection with the fallback policy. -/
  setStreamAfterResume (s : MicState) (e : AttachEnv) :
      MicState × Except String Unit :=
    let s := { s with stream := true }
    match e.createSourceThrows with
    | some m => (s, .error m)
    | none =>
      let s := { s with audioInput := true }
      if s.workletSupported then
        match setupAudioWorklet s e with
        | (s', .ok _) => (s', .ok ())
        | (s', .error _) =>
          if s'.allowScriptProcessorFallback then
            (setupScriptProcessor s', .ok ())
          else
            (s', .error fallbackDisabledSetupMsg)
      else
        if !s.allowScriptProcessorFallback then
          (s, .error fallbackDisabledUnsupportedMsg)
        else
          (setupScriptProcessor s, .ok ())

/-- `pauseRecording()`: sets the recording flag to false. -/
def pauseRecording (s : MicState) : MicState :=
  { s with recording := false }

/-- `resumeRecording()`: sets the recording flag to true. -/
def resumeRecording (s : MicState) : MicState :=
  { s with recording := true }

/-- `stop()`: when the context is not closed, disconnects and nulls whichever
of the source, processor and worklet nodes exist, suspends the context, and
clears the recording flag; when the context is closed, does nothing at all.
The resulting node fields are written unconditionally (nulling an already
null field is the identity) while a disconnect effect is issued only for a
node that existed. -/
def stopFn (s : MicState) : MicState × List Eff :=
  if s.ctx.state ≠ .closed then
    ({ s with audioInput := false,
              processor := false, processorHandlerSet := false,
              workletNode := false, workletHandlerSet := false,
              ctx := { s.ctx with state := .suspended },
              recording := false },
     (if s.audioInput then [Eff.disconnectInput] else []) ++
     (if s.processor then [Eff.disconnectProcessor] else []) ++
     (if s.workletNode then [Eff.disconnectWorklet] else []) ++
     [Eff.ctxSuspend])
  else (s, [])

/-- `destroy()`: disconnects and nulls whichever nodes exist, closes the
context when it is not already closed, stops the media-stream tracks, clears
the recording flag, and dispatches a `close` event as the last action (which
also runs the close listeners clearing any mock data interval). -/
def destroyFn (s : MicState) : MicState × List Eff × List Ev :=
  ({ s with audioInput := false,
            processor := false, processorHandlerSet := false,
            workletNode := false, workletHandlerSet := false,
            ctx := { s.ctx with state := .closed },
            stream := false, recording := false, mockIntervalActive := false },
   (if s.audioInput then [Eff.disconnectInput] else []) ++
   (if s.processor then [Eff.disconnectProcessor] else []) ++
   (if s.workletNode then [Eff.disconnectWorklet] else []) ++
   (if s.ctx.state ≠ .closed then [Eff.ctxClose] else []) ++
   (if s.stream then [Eff.trackStop] else []),
   [Ev.close])

/-- The three sources of audio blocks: a worklet `port.onmessage` delivery,
a ScriptProcessorNode `onaudioprocess` callback, and a tick of the mock
data interval. -/
inductive BackendTick
  | workletMsg
  | processorCb
  | mockTick
deriving DecidableEq, Repr

/-- Delivery of one audio block from a backend: each handler first checks
the recording flag and drops the block when it is false; a handler can only
fire while its node exists and had the callback wired. -/
def deliverBlock (s : MicState) (b : BackendTick) : List Ev :=
  match b with
  | .workletMsg =>
    if s.workletNode && s.workletHandlerSet && s.recording then [.data] else []
  | .processorCb =>
    if s.processor && s.processorHandlerSet && s.recording then [.data] else []
  | .mockTick =>
    if s.mockIntervalActive && s.recording then [.data] else []

/-- The operations a caller (plus the event loop) can perform on a session:
the public methods, the firing of the constructor's `format` timeout, and a
block delivery from one of the backends. -/
inductive Op
  | setStreamOp (e : AttachEnv)
  | pauseOp
  | resumeOp
  | stopOp
  | destroyOp
  | deliverFormatOp
  | deliverBlockOp (b : BackendTick)
deriving DecidableEq, Repr

/-- One step of the session: applies an operation and returns the events it
dispatches.  The `format` timeout fires at most once (the constructor
scheduled a single one) and reads `context.sampleRate` at delivery time. -/
def step (s : MicState) : Op → MicState × List Ev
  | .setStreamOp e =>
    let (s', _, evs) := setStream s e
    (s', evs)
  | .pauseOp => (pauseRecording s, [])
  | .resumeOp => (resumeRecording s, [])
  | .stopOp => ((stopFn s).1, [])
  | .destroyOp =>
    let (s', _, evs) := destroyFn s
    (s', evs)
  | .deliverFormatOp =>
    if s.pendingFormat then
      ({ s with pendingFormat := false },
       [.format 1 32 s.ctx.sampleRate true true])
    else (s, [])
  | .deliverBlockOp b => (s, deliverBlock s b)

/-- Run a sequence of operations, accumulating the dispatched events. -/
def run (s : MicState) : List Op → MicState × List Ev
  | [] => (s, [])
  | op :: ops =>
    let (s', evs) := step s op
    let (s'', evs') := run s' ops
    (s'', evs ++ evs')

/-- Recogniser for `close` events. -/
def isClose : Ev → Bool
  | .close => true
  | _ => false

/-- Recogniser for `format` events. -/
def isFormat : Ev → Bool
  | .format .. => true
  | _ => false

/-- Recogniser for `data` events. -/
def isData : Ev → Bool
  | .data => true
  | _ => false

/-- Recogniser for the `destroy()` operation. -/
def isDestroyOp : Op → Bool
  | .destroyOp => true
  | _ => false

/-- Recogniser for the firing of the constructor's `format` timeout. -/
def isDeliverFormatOp : Op → Bool
  | .deliverFormatOp => true
  | _ => false

/-- Recogniser for `setStream` operations. -/
def isSetStreamOp : Op → Bool
  | .setStreamOp _ => true
  | _ => false

/-- Recogniser for the `resumeRecording()` operation. -/
def isResumeOp : Op → Bool
  | .resumeOp => true
  | _ => false

/-! Interleaving model of concurrent `setStream` calls.  `setStream` is an
async method whose suspension points are the context resume and the worklet
module load; the JavaScript event loop runs its synchronous segments
atomically.  A `Conc` configuration is the session state together with the
continuations of all in-flight `setStream` calls and the settled outcomes.
The source consults no in-flight flag anywhere in `setStream`, which is the
behaviour under scrutiny here. -/

/-- The await at which an in-flight `setStream` call is suspended. -/
inductive AttachPhase
  | awaitingResume
  | awaitingModule
deriving DecidableEq, Repr

/-- A session together with its in-flight `setStream` continuations and the
settled outcomes of completed calls. -/
structure Conc where
  mic : MicState
  inflight : List AttachPhase
  results : List (Except String Unit)
deriving Repr

/-- The synchronous prefix of a `setStream` call (external calls assumed to
succeed): on a Node session it completes immediately; on a suspended context
it suspends awaiting the resume; otherwise it stores the stream, creates the
source node and either suspends awaiting the worklet module load (worklet
supported, context not closed), falls back synchronously (context closed),
or completes synchronously through the ScriptProcessor path.  No branch
inspects the list of attaches already in flight. -/
def startAttach (c : Conc) : Conc :=
  let s := c.mic
  if s.isNodeEnvironment then
    { c with mic := setupMockAudioProcessing s,
             results := c.results ++ [.ok ()] }
  else if s.ctx.state = .suspended then
    { c with inflight := c.inflight ++ [.awaitingResume] }
  else
    let s := { s with stream := true, audioInput := true }
    if s.workletSupported then
      if s.ctx.state = .closed then
        if s.allowScriptProcessorFallback then
          { c with mic := setupScriptProcessor s,
                   results := c.results ++ [.ok ()] }
        else
          { c with mic := s,
                   results := c.results ++ [.error fallbackDisabledSetupMsg] }
      else
        { c with mic := s, inflight := c.inflight ++ [.awaitingModule] }
    else
      if !s.allowScriptProcessorFallback then
        { c with mic := s,
                 results := c.results ++ [.error fallbackDisabledUnsupportedMsg] }
      else
        { c with mic := setupScriptProcessor s,
                 results := c.results ++ [.ok ()] }

/-- The event loop resumes the `i`-th in-flight `setStream` at its await
(the awaited promise having resolved): a resolved resume proceeds to the
module-load await (or completes via the ScriptProcessor path when the
worklet is unsupported); a resolved module load constructs and connects the
worklet node and settles the call successfully. -/
def finishAttach (c : Conc) (i : Nat) : Conc :=
  match c.inflight.get? i with
  | some .awaitingModule =>
    { mic := { c.mic with workletNode := true, workletHandlerSet := true },
      inflight := c.inflight.eraseIdx i,
      results := c.results ++ [.ok ()] }
  | some .awaitingResume =>
    let s := { c.mic with ctx := { c.mic.ctx with state := .running },
                          stream := true, audioInput := true }
    if s.workletSupported then
      { mic := s, inflight := c.inflight.eraseIdx i ++ [.awaitingModule],
        results := c.results }
    else
      { mic := setupScriptProcessor s,
        inflight := c.inflight.eraseIdx i,
        results := c.results ++ [.ok ()] }
  | none => c

/-! Concrete fixtures used by counterexamples and witnesses. -/

/-- A browser host: not Node, creating a running 44100 Hz context exposing
`audioWorklet`. -/
def browserHost : HostEnv := ⟨false, ⟨.running, 44100, true⟩⟩

/-- A Node host (as detected by the constructor's environment sniffing). -/
def nodeHost : HostEnv := ⟨true, ⟨.running, 44100, false⟩⟩

/-- An attach environment in which every external call succeeds. -/
def envOk : AttachEnv := {}

/-- A caller-supplied running context. -/
def providedCtx : Ctx := ⟨.running, 48000, true⟩

/-- A session constructed with a caller-supplied context. -/
def sProvided : MicState := init browserHost { context := some providedCtx }

/-- A freshly constructed Node-environment session. -/
def s0node : MicState := init nodeHost {}

/-- A freshly constructed browser session. -/
def s0browser : MicState := init browserHost {}

/-- An active browser session: constructed, then successfully attached via
the worklet backend. -/
def sActive : MicState := (setStream s0browser envOk).1

/-- A session whose context was closed by `destroy()` and which was then
re-attached (the fallback path constructs a ScriptProcessor even on the
closed context), leaving node fields set while the context is closed. -/
def sClosedCtx : MicState := (setStream (destroyFn s0browser).1 envOk).1

/-- A fresh browser session with no attach in flight. -/
def concIdle : Conc := ⟨s0browser, [], []⟩

/-! Helper lemmas: frame properties of the attach path. -/

/-- The worklet registration/creation body never changes the recording flag,
the pending format timeout, or the context. -/
theorem setupAudioWorkletBody_frame (s : MicState) (e : AttachEnv) :
    ((setupAudioWorklet.setupAudioWorkletBody s e).1.recording = s.recording) ∧
    ((setupAudioWorklet.setupAudioWorkletBody s e).1.pendingFormat = s.pendingFormat) ∧
    ((setupAudioWorklet.setupAudioWorkletBody s e).1.ctx = s.ctx) ∧
    ((setupAudioWorklet.setupAudioWorkletBody s e).1.spCreated = s.spCreated) ∧
    ((setupAudioWorklet.setupAudioWorkletBody s e).1.allowScriptProcessorFallback
      = s.allowScriptProcessorFallback) ∧
    ((setupAudioWorklet.setupAudioWorkletBody s e).1.processor = s.processor) := by
  unfold setupAudioWorklet.setupAudioWorkletBody
  rcases e with ⟨em, rf, cs, am, nc, cf⟩
  cases am <;> cases nc <;> cases cf <;> simp

/-- `setupAudioWorklet` never changes the recording flag, the pending format
timeout, the sample rate, or the ScriptProcessor construction counter. -/
theorem setupAudioWorklet_frame (s : MicState) (e : AttachEnv) :
    ((setupAudioWorklet s e).1.recording = s.recording) ∧
    ((setupAudioWorklet s e).1.pendingFormat = s.pendingFormat) ∧
    ((setupAudioWorklet s e).1.ctx.sampleRate = s.ctx.sampleRate) ∧
    ((setupAudioWorklet s e).1.spCreated = s.spCreated) := by
  unfold setupAudioWorklet
  split
  · simp
  · split
    · simp
    · split
      · split
        · simp
        · have h := setupAudioWorkletBody_frame s e
          simp_all
      · split
        · have h := setupAudioWorkletBody_frame
            { s with ctx := { s.ctx with state := CtxState.running } } e
          simp_all
        · have h := setupAudioWorkletBody_frame s e
          simp_all

/-- `setupAudioWorklet` never changes the fallback policy flag or the
ScriptProcessor node field. -/
theorem setupAudioWorklet_policy_frame (s : MicState) (e : AttachEnv) :
    ((setupAudioWorklet s e).1.allowScriptProcessorFallback
      = s.allowScriptProcessorFallback) ∧
    ((setupAudioWorklet s e).1.processor = s.processor) := by
  unfold setupAudioWorklet
  split
  · simp
  · split
    · simp
    · split
      · split
        · simp
        · have h := setupAudioWorkletBody_frame s e
          simp_all
      · split
        · have h := setupAudioWorkletBody_frame
            { s with ctx := { s.ctx with state := CtxState.running } } e
          simp_all
        · have h := setupAudioWorkletBody_frame s e
          simp_all

/-- When the source node exists, resume does not fail, and any of the
closed-context, module-load, node-construction or connection failures
applies, `setupAudioWorklet` returns an error. -/
theorem setupAudioWorklet_fails (s : MicState) (e : AttachEnv)
    (ha : s.audioInput = true) (hr : e.resumeFails = none)
    (hw : s.ctx.state = .closed ∨ e.addModuleFails ≠ none ∨
          e.nodeCtorFails ≠ none ∨ e.connectFails ≠ none) :
    ∃ m, (setupAudioWorklet s e).2 = .error m := by
  unfold setupAudioWorklet
  rcases e with ⟨em, rf, cs, am, nc, cf⟩
  simp only at hr hw ⊢
  subst hr
  by_cases hc : s.ctx.state = CtxState.closed
  · simp [ha, hc]
  · unfold setupAudioWorklet.setupAudioWorkletBody
    rcases am with _ | m1
    · rcases nc with _ | m2
      · rcases cf with _ | m3
        · rcases hw with hw | hw | hw | hw
          · exact absurd hw hc
          · exact absurd rfl hw
          · exact absurd rfl hw
          · exact absurd rfl hw
        · by_cases hs : s.ctx.state = CtxState.suspended <;> simp [ha, hc, hs]
      · by_cases hs : s.ctx.state = CtxState.suspended <;> simp [ha, hc, hs]
    · by_cases hs : s.ctx.state = CtxState.suspended <;> simp [ha, hc, hs]

/-- When the connect calls do not fail, an error outcome of
`setupAudioWorklet` leaves the worklet-node field unchanged (the node is
only assigned after module registration and construction succeed). -/
theorem setupAudioWorklet_error_no_node (s : MicState) (e : AttachEnv)
    (he : e.connectFails = none) (m : String)
    (h : (setupAudioWorklet s e).2 = .error m) :
    (setupAudioWorklet s e).1.workletNode = s.workletNode := by
  unfold setupAudioWorklet at h ⊢
  rcases e with ⟨em, rf, cs, am, nc, cf⟩
  simp only at he
  subst he
  unfold setupAudioWorklet.setupAudioWorkletBody at h ⊢
  rcases rf with _ | m0 <;> rcases am with _ | m1 <;> rcases nc with _ | m2 <;>
    by_cases hi : (!s.audioInput) = true <;>
    by_cases hc : s.ctx.state = CtxState.closed <;>
    by_cases hs : s.ctx.state = CtxState.suspended <;>
    simp_all

/-- `setupScriptProcessor` never changes the worklet-node field. -/
theorem setupScriptProcessor_workletNode (s : MicState) :
    (setupScriptProcessor s).workletNode = s.workletNode := by
  unfold setupScriptProcessor
  split <;> simp

/-- `setupScriptProcessor` never changes the recording flag, the pending
format timeout, or the context. -/
theorem setupScriptProcessor_frame (s : MicState) :
    ((setupScriptProcessor s).recording = s.recording) ∧
    ((setupScriptProcessor s).pendingFormat = s.pendingFormat) ∧
    ((setupScriptProcessor s).ctx = s.ctx) := by
  unfold setupScriptProcessor
  split <;> simp

/-- The backend-selection part of `setStream` never changes the recording
flag, the pending format timeout, or the sample rate. -/
theorem setStreamAfterResume_frame (s : MicState) (e : AttachEnv) :
    ((setStream.setStreamAfterResume s e).1.recording = s.recording) ∧
    ((setStream.setStreamAfterResume s e).1.pendingFormat = s.pendingFormat) ∧
    ((setStream.setStreamAfterResume s e).1.ctx.sampleRate = s.ctx.sampleRate) := by
  unfold setStream.setStreamAfterResume
  rcases h : e.createSourceThrows with _ | m
  · simp only [h]
    split
    · split
      · rename_i s' r heq
        have hf := setupAudioWorklet_frame { s with stream := true, audioInput := true } e
        rw [heq] at hf
        simp_all
      · rename_i s' r heq
        have hf := setupAudioWorklet_frame { s with stream := true, audioInput := true } e
        rw [heq] at hf
        split
        · have hs := setupScriptProcessor_frame s'
          simp_all
        · simp_all
    · split
      · simp
      · have hs := setupScriptProcessor_frame { s with stream := true, audioInput := true }
        simp_all
  · simp [h]

/-- The `try` block of `setStream` never changes the recording flag, the
pending format timeout, or the sample rate. -/
theorem setStreamTry_frame (s : MicState) (e : AttachEnv) :
    ((setStream.setStreamTry s e).1.recording = s.recording) ∧
    ((setStream.setStreamTry s e).1.pendingFormat = s.pendingFormat) ∧
    ((setStream.setStreamTry s e).1.ctx.sampleRate = s.ctx.sampleRate) := by
  unfold setStream.setStreamTry
  rcases h : e.resumeFails with _ | m
  · simp only [h]
    split
    · have hf := setStreamAfterResume_frame
        { s with ctx := { s.ctx with state := CtxState.running } } e
      simp_all
    · exact setStreamAfterResume_frame s e
  · simp only [h]
    split
    · simp
    · exact setStreamAfterResume_frame s e

/-- `setStream` never changes the recording flag, the pending format
timeout, or the sample rate. -/
theorem setStream_frame (s : MicState) (e : AttachEnv) :
    ((setStream s e).1.recording = s.recording) ∧
    ((setStream s e).1.pendingFormat = s.pendingFormat) ∧
    ((setStream s e).1.ctx.sampleRate = s.ctx.sampleRate) := by
  unfold setStream
  rcases h : e.earlyMockThrow with _ | m
  · simp only [h]
    split
    · simp [setupMockAudioProcessing]
    · split <;> rename_i s' r heq <;>
        · have hf := setStreamTry_frame s e
          rw [heq] at hf
          simp_all
  · simp [h]

/-- The events dispatched by `setStream` are either none or a single
`error` event. -/
theorem setStream_events_shape (s : MicState) (e : AttachEnv) :
    (setStream s e).2.2 = [] ∨ ∃ m, (setStream s e).2.2 = [Ev.error m] := by
  unfold setStream
  rcases h : e.earlyMockThrow with _ | m
  · simp only [h]
    split
    · simp
    · split <;> simp
  · simp [h]

/-- From a state holding neither processing node, the backend-selection part
of `setStream` with no connect failure leaves at most one of the worklet and
ScriptProcessor nodes set. -/
theorem setStreamAfterResume_single_node (s : MicState) (e : AttachEnv)
    (h0 : s.workletNode = false) (h1 : s.processor = false)
    (he : e.connectFails = none) :
    ¬((setStream.setStreamAfterResume s e).1.workletNode = true ∧
      (setStream.setStreamAfterResume s e).1.processor = true) := by
  unfold setStream.setStreamAfterResume
  rcases hcs : e.createSourceThrows with _ | m
  · simp only [hcs]
    split
    · split
      · rename_i s' r heq
        have hp := (setupAudioWorklet_policy_frame
          { s with stream := true, audioInput := true } e).2
        rw [heq] at hp
        simp_all
      · rename_i s' m' heq
        have hn := setupAudioWorklet_error_no_node
          { s with stream := true, audioInput := true } e he m' (by rw [heq])
        rw [heq] at hn
        have hwn := setupScriptProcessor_workletNode s'
        split <;> simp_all
    · split
      · simp [h0, h1]
      · have hwn := setupScriptProcessor_workletNode
          { s with stream := true, audioInput := true }
        simp_all
  · simp [hcs, h0, h1]

/-- From a state holding neither processing node, the `try` body of
`setStream` with no connect failure leaves at most one of the worklet and
ScriptProcessor nodes set. -/
theorem setStreamTry_single_node (s : MicState) (e : AttachEnv)
    (h0 : s.workletNode = false) (h1 : s.processor = false)
    (he : e.connectFails = none) :
    ¬((setStream.setStreamTry s e).1.workletNode = true ∧
      (setStream.setStreamTry s e).1.processor = true) := by
  unfold setStream.setStreamTry
  rcases hrf : e.resumeFails with _ | m0
  · simp only [hrf]
    split
    · exact setStreamAfterResume_single_node
        { s with ctx := { s.ctx with state := CtxState.running } } e h0 h1 he
    · exact setStreamAfterResume_single_node s e h0 h1 he
  · simp only [hrf]
    split
    · simp [h0, h1]
    · exact setStreamAfterResume_single_node s e h0 h1 he

/-- From a state whose fallback policy is disabled, and under any condition
making the worklet backend unavailable or its setup fail, the
backend-selection part of `setStream` returns one of the two
fallback-disabled errors and constructs no ScriptProcessor. -/
theorem setStreamAfterResume_fallback_disabled (s : MicState) (e : AttachEnv)
    (hf : s.allowScriptProcessorFallback = false)
    (hr : e.resumeFails = none) (hc : e.createSourceThrows = none)
    (hw : s.workletSupported = false ∨ s.ctx.state = .closed ∨
          e.addModuleFails ≠ none ∨ e.nodeCtorFails ≠ none ∨
          e.connectFails ≠ none) :
    ∃ m, (setStream.setStreamAfterResume s e).2 = .error m ∧
      (m = fallbackDisabledSetupMsg ∨ m = fallbackDisabledUnsupportedMsg) ∧
      (setStream.setStreamAfterResume s e).1.spCreated = s.spCreated := by
  unfold setStream.setStreamAfterResume
  simp only [hc]
  split
  · rename_i hws
    have hws' : s.workletSupported = true := hws
    have hfail : ∃ m, (setupAudioWorklet
        { s with stream := true, audioInput := true } e).2 = .error m := by
      apply setupAudioWorklet_fails _ e rfl hr
      rcases hw with hw | hw | hw | hw | hw
      · rw [hws'] at hw
        exact absurd hw (by simp)
      · exact Or.inl hw
      · exact Or.inr (Or.inl hw)
      · exact Or.inr (Or.inr (Or.inl hw))
      · exact Or.inr (Or.inr (Or.inr hw))
    obtain ⟨m, hm⟩ := hfail
    split
    · rename_i s' r heq
      rw [heq] at hm
      simp at hm
    · rename_i s' m' heq
      have hallow := (setupAudioWorklet_policy_frame
        { s with stream := true, audioInput := true } e).1
      have hsp := (setupAudioWorklet_frame
        { s with stream := true, audioInput := true } e).2.2.2
      rw [heq] at hallow hsp
      simp only at hallow hsp
      rw [hf] at hallow
      split
      · simp_all
      · exact ⟨fallbackDisabledSetupMsg, rfl, Or.inl rfl, by simp_all⟩
  · rename_i hws
    split
    · exact ⟨fallbackDisabledUnsupportedMsg, rfl, Or.inr rfl, rfl⟩
    · rename_i hcontra
      rw [show ({ s with stream := true, audioInput := true } :
            MicState).allowScriptProcessorFallback
          = s.allowScriptProcessorFallback from rfl, hf] at hcontra
      exact absurd rfl hcontra

/-- From a state whose fallback policy is disabled, and under any condition
making the worklet backend unavailable or its setup fail, the `try` body of
`setStream` returns one of the two fallback-disabled errors and constructs
no ScriptProcessor. -/
theorem setStreamTry_fallback_disabled (s : MicState) (e : AttachEnv)
    (hf : s.allowScriptProcessorFallback = false)
    (hr : e.resumeFails = none) (hc : e.createSourceThrows = none)
    (hw : s.workletSupported = false ∨ s.ctx.state = .closed ∨
          e.addModuleFails ≠ none ∨ e.nodeCtorFails ≠ none ∨
          e.connectFails ≠ none) :
    ∃ m, (setStream.setStreamTry s e).2 = .error m ∧
      (m = fallbackDisabledSetupMsg ∨ m = fallbackDisabledUnsupportedMsg) ∧
      (setStream.setStreamTry s e).1.spCreated = s.spCreated := by
  unfold setStream.setStreamTry
  simp only [hr]
  split
  · rename_i hs
    refine setStreamAfterResume_fallback_disabled
      { s with ctx := { s.ctx with state := CtxState.running } } e hf hr hc ?_
    rcases hw with hw | hw | hw | hw | hw
    · exact Or.inl hw
    · rw [hw] at hs
      exact absurd hs (by decide)
    · exact Or.inr (Or.inr (Or.inl hw))
    · exact Or.inr (Or.inr (Or.inr (Or.inl hw)))
    · exact Or.inr (Or.inr (Or.inr (Or.inr hw)))
  · exact setStreamAfterResume_fallback_disabled s e hf hr hc hw

/-! Claim theorems. -/

/-- C10: when `stop()` is called while the audio context is in the `closed`
state, it is a complete no-op — the node fields are left exactly as they
were, no disconnect or suspend effect is issued, and the recording flag is
unchanged. -/
theorem stop_noop_when_context_closed (s : MicState)
    (h : s.ctx.state = .closed) : stopFn s = (s, []) := by
  simp [stopFn, h]

/-- Witness for C10: a session whose context was closed by `destroy()` and
which still holds source and processor nodes (re-attached afterwards); on it
`stop()` changes nothing and issues no effect. -/
theorem stop_noop_when_context_closed_witness :
    (sClosedCtx.ctx.state = .closed ∧ sClosedCtx.audioInput = true ∧
      sClosedCtx.processor = true) ∧
    stopFn sClosedCtx = (sClosedCtx, []) :=
  ⟨by decide, stop_noop_when_context_closed sClosedCtx (by decide)⟩

/-- Counterexample to C1: on an active session (recording, context not
closed), `stop()` sets the recording flag to `false`, which in the spec's
vocabulary is `isPaused = true` — not `false` as the claim states. -/
theorem stop_marks_session_paused_cex :
    sActive.recording = true ∧ sActive.ctx.state ≠ .closed ∧
    (stopFn sActive).1.recording = false := by decide

/-- C1 (amended): after `stop()` on a session whose context is not closed,
the recording flag is `false` (the session is marked paused, the opposite of
the claim); a subsequent `setStream` leaves the flag `false`, so no backend
delivery produces a `data` event until `resumeRecording()` is called. -/
theorem stop_sets_paused_flag (s : MicState) (h : s.ctx.state ≠ .closed) :
    (stopFn s).1.recording = false ∧
    ∀ e : AttachEnv, (setStream (stopFn s).1 e).1.recording = false ∧
      ∀ b, deliverBlock (setStream (stopFn s).1 e).1 b = [] := by
  have hr : (stopFn s).1.recording = false := by simp [stopFn, h]
  refine ⟨hr, fun e => ?_⟩
  have hf := (setStream_frame (stopFn s).1 e).1
  rw [hr] at hf
  exact ⟨hf, fun b => by cases b <;> simp [deliverBlock, hf]⟩

/-- Witness for C1 (amended): the active session fixture, stopped, then
re-attached; the paused flag stays set and a mock tick delivers nothing. -/
theorem stop_sets_paused_flag_witness :
    sActive.ctx.state ≠ .closed ∧
    (stopFn sActive).1.recording = false ∧
    (setStream (stopFn sActive).1 envOk).1.recording = false ∧
    deliverBlock (setStream (stopFn sActive).1 envOk).1 .mockTick = [] :=
  ⟨by decide,
   (stop_sets_paused_flag sActive (by decide)).1,
   ((stop_sets_paused_flag sActive (by decide)).2 envOk).1,
   ((stop_sets_paused_flag sActive (by decide)).2 envOk).2 .mockTick⟩

/-- Counterexample to C2: a session constructed with a caller-supplied
running context; `destroy()` issues a `close` call on that borrowed
context. -/
theorem destroy_closes_provided_context_cex :
    sProvided.ctxProvided = true ∧ sProvided.ctx.state ≠ .closed ∧
    Eff.ctxClose ∈ (destroyFn sProvided).2.1 := by decide

/-- C2 (amended): `destroy()` closes whatever context the session holds
whenever that context is not already closed — ownership is irrelevant, since
the code records no ownership flag; only an already-closed context escapes
the `close` call. -/
theorem destroy_closes_any_nonclosed_context (s : MicState) :
    Eff.ctxClose ∈ (destroyFn s).2.1 ↔ s.ctx.state ≠ .closed := by
  unfold destroyFn
  simp only [List.mem_append]
  split_ifs <;> simp_all

/-- C8: every failure of `setStream` is propagated on both channels: when
the returned promise rejects with message `m`, an `error` event carrying the
same `m` is among the dispatched events. -/
theorem attach_failure_dual_channel (s : MicState) (e : AttachEnv)
    (m : String) (h : (setStream s e).2.1 = .error m) :
    Ev.error m ∈ (setStream s e).2.2 := by
  unfold setStream at h ⊢
  rcases he : e.earlyMockThrow with _ | m'
  · rcases ht : setStream.setStreamTry s e with ⟨s', r⟩
    rcases r with m'' | u
    · by_cases hn : s.isNodeEnvironment <;> simp_all
    · by_cases hn : s.isNodeEnvironment <;> simp_all
  · simp_all

/-- A step dispatches a `close` event exactly when the operation is
`destroy()`, and then exactly one. -/
theorem step_close_count (s : MicState) (op : Op) :
    (step s op).2.countP isClose = if isDestroyOp op then 1 else 0 := by
  cases op with
  | setStreamOp e =>
    rcases setStream_events_shape s e with h | ⟨m, h⟩ <;>
      simp [step, isDestroyOp, h, isClose]
  | pauseOp => simp [step, isDestroyOp]
  | resumeOp => simp [step, isDestroyOp]
  | stopOp => simp [step, isDestroyOp]
  | destroyOp => simp [step, destroyFn, isDestroyOp, isClose]
  | deliverFormatOp =>
    by_cases h : s.pendingFormat <;> simp [step, isDestroyOp, h, isFormat, isClose]
  | deliverBlockOp b =>
    cases b <;> simp only [step, deliverBlock, isDestroyOp] <;>
      split <;> simp [isClose, isData]

/-- Over a whole trace, the number of `close` events equals the number of
`destroy()` calls. -/
theorem run_close_count (s : MicState) (ops : List Op) :
    (run s ops).2.countP isClose = ops.countP isDestroyOp := by
  induction ops generalizing s with
  | nil => simp [run]
  | cons op ops ih =>
    simp only [run, List.countP_cons, List.countP_append]
    rw [ih, step_close_count]
    by_cases h : isDestroyOp op
    · simp [h]
      omega
    · simp [h]

/-- `destroy()` always clears the recording flag. -/
theorem destroy_recording (s : MicState) : (destroyFn s).1.recording = false := by
  simp [destroyFn]

/-- Any operation other than `resumeRecording()` keeps the recording flag
false once it is false. -/
theorem step_keeps_not_recording (s : MicState) (op : Op)
    (hop : isResumeOp op = false) (h : s.recording = false) :
    (step s op).1.recording = false := by
  cases op with
  | setStreamOp e =>
    have hf := (setStream_frame s e).1
    simp [step, hf, h]
  | pauseOp => simp [step, pauseRecording]
  | resumeOp => simp [isResumeOp] at hop
  | stopOp =>
    simp only [step, stopFn]
    split <;> simp [h]
  | destroyOp => simpa [step] using destroy_recording s
  | deliverFormatOp =>
    by_cases hp : s.pendingFormat <;> simp [step, hp, h]
  | deliverBlockOp b => simp [step, h]

/-- While the recording flag is false, no step dispatches a `data` event. -/
theorem step_no_data (s : MicState) (op : Op) (h : s.recording = false) :
    (step s op).2.countP isData = 0 := by
  cases op with
  | setStreamOp e =>
    rcases setStream_events_shape s e with hs | ⟨m, hs⟩ <;>
      simp [step, hs, isData]
  | pauseOp => simp [step]
  | resumeOp => simp [step]
  | stopOp => simp [step]
  | destroyOp => simp [step, destroyFn, isData, isClose]
  | deliverFormatOp =>
    by_cases hp : s.pendingFormat <;> simp [step, hp, isData, isFormat]
  | deliverBlockOp b => cases b <;> simp [step, deliverBlock, h]

/-- From a state with the recording flag false, a trace containing no
`resumeRecording()` call dispatches no `data` event at all. -/
theorem run_no_data (s : MicState) (ops : List Op) (h : s.recording = false)
    (hops : ∀ op ∈ ops, isResumeOp op = false) :
    (run s ops).2.countP isData = 0 := by
  induction ops generalizing s with
  | nil => simp [run]
  | cons op ops ih =>
    simp only [run, List.countP_append]
    rw [step_no_data s op h,
        ih _ (step_keeps_not_recording s op (hops op (by simp)) h)
          (fun o ho => hops o (by simp [ho]))]

/-- Counterexample to C4: on a Node-environment session, `setStream` after
`destroy()` succeeds (the code enforces no terminal state), and the trace
destroy, re-attach, resumeRecording, mock tick dispatches a `data` event
after the `close` event. -/
theorem attach_after_destroy_succeeds_cex :
    (setStream (destroyFn s0node).1 envOk).2.1 = .ok () ∧
    (run s0node [.destroyOp, .setStreamOp envOk, .resumeOp,
                 .deliverBlockOp .mockTick]).2 = [.close, .data] :=
  ⟨rfl, by decide⟩

/-- C4 (amended): `setStream` performs no destroyed-state check — on a
Node-environment session it even succeeds after `destroy()`; the absence of
further `data` events after `destroy()` holds only as long as
`resumeRecording()` is never called again, because `destroy()` clears the
recording flag and re-attaching preserves it. -/
theorem destroy_not_terminal (s : MicState) (ops : List Op)
    (hops : ∀ op ∈ ops, isResumeOp op = false) :
    (run (destroyFn s).1 ops).2.countP isData = 0 ∧
    (s.isNodeEnvironment = true → ∀ e : AttachEnv, e.earlyMockThrow = none →
      (setStream (destroyFn s).1 e).2.1 = .ok ()) := by
  constructor
  · exact run_no_data _ ops (destroy_recording s) hops
  · intro hn e he
    have hn' : (destroyFn s).1.isNodeEnvironment = true := by
      simpa [destroyFn] using hn
    unfold setStream
    simp [he, hn']

/-- Witness for C4 (amended): the Node session, destroyed, then observed
through a stop and a mock tick — no data; and a re-attach succeeds. -/
theorem destroy_not_terminal_witness :
    (run (destroyFn s0node).1 [.stopOp, .deliverBlockOp .mockTick]).2.countP isData = 0 ∧
    (setStream (destroyFn s0node).1 envOk).2.1 = .ok () :=
  ⟨(destroy_not_terminal s0node [.stopOp, .deliverBlockOp .mockTick]
      (by decide)).1,
   (destroy_not_terminal s0node [.stopOp, .deliverBlockOp .mockTick]
      (by decide)).2 (by decide) envOk (by decide)⟩

/-- Counterexample to C3: destroying, re-attaching (Node path), resuming and
letting the mock interval tick, then destroying again, dispatches the event
sequence close, data, close — a `data` event after `close` and a second
`close` from the second `destroy()`. -/
theorem close_not_unique_or_last_cex :
    (run s0node [.destroyOp, .setStreamOp envOk, .resumeOp,
                 .deliverBlockOp .mockTick, .destroyOp]).2
      = [.close, .data, .close] := by decide

/-- C3 (amended): `close` events are dispatched exactly by `destroy()` calls
— every trace dispatches as many `close` events as it contains `destroy()`
operations (so a session destroyed exactly once emits exactly one `close`,
but a second `destroy()` emits a second one), and no other operation ever
dispatches `close`. -/
theorem close_count_eq_destroy_count (s : MicState) (ops : List Op) :
    (run s ops).2.countP isClose = ops.countP isDestroyOp :=
  run_close_count s ops

/-- A step dispatches a `format` event exactly when the constructor's
timeout fires while still pending, and then exactly one. -/
theorem step_format_count (s : MicState) (op : Op) :
    (step s op).2.countP isFormat
      = if isDeliverFormatOp op && s.pendingFormat then 1 else 0 := by
  cases op with
  | setStreamOp e =>
    rcases setStream_events_shape s e with h | ⟨m, h⟩ <;>
      simp [step, isDeliverFormatOp, h, isFormat]
  | pauseOp => simp [step, isDeliverFormatOp]
  | resumeOp => simp [step, isDeliverFormatOp]
  | stopOp => simp [step, isDeliverFormatOp]
  | destroyOp => simp [step, destroyFn, isDeliverFormatOp, isFormat, isClose]
  | deliverFormatOp =>
    by_cases h : s.pendingFormat <;> simp [step, isDeliverFormatOp, h, isFormat]
  | deliverBlockOp b =>
    cases b <;> simp only [step, deliverBlock, isDeliverFormatOp] <;>
      split <;> simp [isFormat, isData]

/-- The pending-format flag after a step: it is consumed exactly by the
firing of the constructor's timeout and preserved by every other operation
(`destroy()` does not cancel the timeout). -/
theorem step_pendingFormat (s : MicState) (op : Op) :
    (step s op).1.pendingFormat = (s.pendingFormat && !isDeliverFormatOp op) := by
  cases op with
  | setStreamOp e =>
    have hf := (setStream_frame s e).2.1
    simp [step, hf, isDeliverFormatOp]
  | pauseOp => simp [step, pauseRecording, isDeliverFormatOp]
  | resumeOp => simp [step, resumeRecording, isDeliverFormatOp]
  | stopOp =>
    simp only [step, stopFn]
    split <;> simp [isDeliverFormatOp]
  | destroyOp => simp [step, destroyFn, isDeliverFormatOp]
  | deliverFormatOp =>
    by_cases h : s.pendingFormat <;> simp [step, h, isDeliverFormatOp]
  | deliverBlockOp b => simp [step, isDeliverFormatOp]

/-- No operation changes the context's sample rate. -/
theorem step_sampleRate (s : MicState) (op : Op) :
    (step s op).1.ctx.sampleRate = s.ctx.sampleRate := by
  cases op with
  | setStreamOp e => simpa [step] using (setStream_frame s e).2.2
  | pauseOp => simp [step, pauseRecording]
  | resumeOp => simp [step, resumeRecording]
  | stopOp =>
    simp only [step, stopFn]
    split <;> simp
  | destroyOp => simp [step, destroyFn]
  | deliverFormatOp =>
    by_cases h : s.pendingFormat <;> simp [step, h]
  | deliverBlockOp b => simp [step]

/-- Every `format` event a step dispatches carries channels 1, bit depth 32,
signed float, and the sample rate of the context at that step. -/
theorem step_format_payload (s : MicState) (op : Op) :
    ∀ ev ∈ (step s op).2, isFormat ev = true →
      ev = .format 1 32 s.ctx.sampleRate true true := by
  cases op with
  | setStreamOp e =>
    rcases setStream_events_shape s e with h | ⟨m, h⟩ <;>
      simp [step, h, isFormat]
  | pauseOp => simp [step]
  | resumeOp => simp [step]
  | stopOp => simp [step]
  | destroyOp => simp [step, destroyFn, isFormat]
  | deliverFormatOp =>
    by_cases h : s.pendingFormat <;> simp [step, h, isFormat]
  | deliverBlockOp b =>
    cases b <;> simp only [step, deliverBlock] <;> split <;> simp [isFormat]

/-- Over a whole trace, the number of `format` events is one when the
constructor's timeout is still pending and fires in the trace, zero
otherwise. -/
theorem run_format_count (s : MicState) (ops : List Op) :
    (run s ops).2.countP isFormat
      = if s.pendingFormat && ops.any isDeliverFormatOp then 1 else 0 := by
  induction ops generalizing s with
  | nil => simp [run]
  | cons op ops ih =>
    simp only [run, List.countP_append, List.any_cons]
    rw [step_format_count, ih (step s op).1, step_pendingFormat]
    by_cases hd : isDeliverFormatOp op = true <;>
      by_cases hp : s.pendingFormat = true <;>
      by_cases ha : ops.any isDeliverFormatOp = true <;>
      simp [hd, hp, ha]

/-- A whole trace never changes the context's sample rate. -/
theorem run_sampleRate (s : MicState) (ops : List Op) :
    (run s ops).1.ctx.sampleRate = s.ctx.sampleRate := by
  induction ops generalizing s with
  | nil => simp [run]
  | cons op ops ih =>
    simp only [run]
    rw [ih (step s op).1, step_sampleRate]

/-- Every `format` event of a whole trace carries channels 1, bit depth 32,
signed float, and the (invariant) sample rate of the context. -/
theorem run_format_payload (s : MicState) (ops : List Op) :
    ∀ ev ∈ (run s ops).2, isFormat ev = true →
      ev = .format 1 32 s.ctx.sampleRate true true := by
  induction ops generalizing s with
  | nil => simp [run]
  | cons op ops ih =>
    intro ev hev hf
    simp only [run, List.mem_append] at hev
    rcases hev with hev | hev
    · exact step_format_payload s op ev hev hf
    · have := ih (step s op).1 ev hev hf
      rwa [step_sampleRate] at this

/-- C9: for every session and every trace, the `format` event is dispatched
exactly once when the constructor's scheduled timeout fires (and never
before it fires, hence never synchronously during construction), every
`format` event carries channels 1, bit depth 32, signed float and the
context's sample rate at delivery time (which no operation ever changes,
including re-attachment, which also never re-emits `format`). -/
theorem format_emitted_once_async (h : HostEnv) (o : Options) (ops : List Op) :
    ((run (init h o) ops).2.countP isFormat
      = if ops.any isDeliverFormatOp then 1 else 0) ∧
    (∀ ev ∈ (run (init h o) ops).2, isFormat ev = true →
      ev = .format 1 32 (init h o).ctx.sampleRate true true) ∧
    (run (init h o) ops).1.ctx.sampleRate = (init h o).ctx.sampleRate := by
  refine ⟨?_, run_format_payload _ ops, run_sampleRate _ ops⟩
  rw [run_format_count]
  have hp : (init h o).pendingFormat = true := rfl
  rw [hp]
  simp

/-- Witness for C9: a browser session whose timeout fires after an attach;
the trace dispatches exactly one `format` event. -/
theorem format_emitted_once_async_witness :
    ((run (init browserHost {}) [.setStreamOp envOk, .deliverFormatOp]).2.countP isFormat
      = if [Op.setStreamOp envOk, Op.deliverFormatOp].any isDeliverFormatOp
        then 1 else 0) ∧
    (∀ ev ∈ (run (init browserHost {}) [.setStreamOp envOk, .deliverFormatOp]).2,
      isFormat ev = true →
      ev = .format 1 32 (init browserHost {}).ctx.sampleRate true true) ∧
    (run (init browserHost {}) [.setStreamOp envOk, .deliverFormatOp]).1.ctx.sampleRate
      = (init browserHost {}).ctx.sampleRate :=
  format_emitted_once_async browserHost {} [.setStreamOp envOk, .deliverFormatOp]

/-- Witness for C8: an attach whose `createMediaStreamSource` throws; the
promise rejects with the thrown message and the same message is published
as an `error` event. -/
theorem attach_failure_dual_channel_witness :
    (setStream s0browser
        { createSourceThrows := some "Failed to create media stream source" }).2.1
      = .error "Failed to create media stream source" ∧
    Ev.error "Failed to create media stream source" ∈
      (setStream s0browser
        { createSourceThrows := some "Failed to create media stream source" }).2.2 :=
  ⟨by rfl,
   attach_failure_dual_channel s0browser
     { createSourceThrows := some "Failed to create media stream source" }
     "Failed to create media stream source" (by rfl)⟩

/-- Counterexample to C5: attaching on a fresh browser session in an
environment where the worklet node is constructed but its connection throws
leaves BOTH the worklet node and the fallback ScriptProcessor node set —
the partially set-up worklet node is not torn down before the legacy
backend attaches. -/
theorem dual_nodes_after_partial_worklet_cex :
    (setStream s0browser { connectFails := some "connect failed" }).1.workletNode
      = true ∧
    (setStream s0browser { connectFails := some "connect failed" }).1.processor
      = true := by decide

/-- C5 (amended): starting from a session holding neither processing node,
an attach leaves at most one of the worklet and ScriptProcessor nodes set —
UNLESS the worklet node was constructed and one of its connect calls then
failed, in which case the node is not torn down before the fallback attaches
and both nodes end up set. -/
theorem at_most_one_node_unless_connect_failure (s : MicState) (e : AttachEnv)
    (h0 : s.workletNode = false) (h1 : s.processor = false)
    (he : e.connectFails = none) :
    ¬((setStream s e).1.workletNode = true ∧
      (setStream s e).1.processor = true) := by
  unfold setStream
  rcases hem : e.earlyMockThrow with _ | m
  · simp only [hem]
    split
    · simp [setupMockAudioProcessing, h0]
    · have key := setStreamTry_single_node s e h0 h1 he
      split
      · rename_i s' r heq
        rw [heq] at key
        simpa using key
      · rename_i s' m' heq
        rw [heq] at key
        simpa using key
  · simp [hem, h0, h1]

/-- Witness for C5 (amended): a fresh browser session attached in an
environment where module loading fails (before the worklet node is
constructed); only the ScriptProcessor node ends up set. -/
theorem at_most_one_node_unless_connect_failure_witness :
    s0browser.workletNode = false ∧ s0browser.processor = false ∧
    ¬((setStream s0browser { addModuleFails := some "module load failed" }).1.workletNode
        = true ∧
      (setStream s0browser { addModuleFails := some "module load failed" }).1.processor
        = true) :=
  ⟨by decide, by decide,
   at_most_one_node_unless_connect_failure s0browser
     { addModuleFails := some "module load failed" }
     (by decide) (by decide) (by decide)⟩

/-- C6: on a browser session with the ScriptProcessorNode fallback disabled,
whenever the worklet backend is unavailable or its setup fails, `setStream`
rejects with an error message that explicitly names the disabled
ScriptProcessorNode fallback, publishes the same message as an `error`
event, and constructs no ScriptProcessor node (the construction counter is
unchanged). -/
theorem fallback_disabled_rejects_attach (s : MicState) (e : AttachEnv)
    (hn : s.isNodeEnvironment = false)
    (hf : s.allowScriptProcessorFallback = false)
    (hem : e.earlyMockThrow = none)
    (hr : e.resumeFails = none) (hc : e.createSourceThrows = none)
    (hw : s.workletSupported = false ∨ s.ctx.state = .closed ∨
          e.addModuleFails ≠ none ∨ e.nodeCtorFails ≠ none ∨
          e.connectFails ≠ none) :
    ∃ m, (setStream s e).2.1 = .error m ∧
      (setStream s e).2.2 = [Ev.error m] ∧
      mentionsFallbackDisabled m = true ∧
      (setStream s e).1.spCreated = s.spCreated := by
  obtain ⟨m, hm, hmsg, hsp⟩ := setStreamTry_fallback_disabled s e hf hr hc hw
  have hmention : mentionsFallbackDisabled m = true := by
    rcases hmsg with h | h <;> subst h <;> decide
  refine ⟨m, ?_⟩
  unfold setStream
  simp only [hem, hn]
  rcases ht : setStream.setStreamTry s e with ⟨s', r⟩
  rw [ht] at hm hsp
  rcases r with m' | u
  · have hm' : m' = m := by simpa using hm
    subst hm'
    exact ⟨by simp, by simp, hmention, by simpa using hsp⟩
  · simp at hm

/-- Counterexample to C7: two `setStream` calls on the same fresh browser
session, the second issued while the first is suspended at its module-load
await — the second call is NOT rejected (no outcome settles, so no
attach-in-progress error) and both attach attempts end up in flight
simultaneously. -/
theorem second_attach_not_rejected_cex :
    (startAttach concIdle).inflight.length = 1 ∧
    (startAttach concIdle).results = [] ∧
    (startAttach (startAttach concIdle)).inflight.length = 2 ∧
    (startAttach (startAttach concIdle)).results = [] :=
  ⟨rfl, rfl, rfl, rfl⟩

/-- C7 (amended): `setStream` consults no in-flight guard: a call issued on
a running browser session with worklet support always proceeds to its
module-load await, no matter how many attaches are already in flight, and
settles no outcome at that point — in particular it is never rejected with
an attach-in-progress error; concurrent attaches simply race. -/
theorem attach_has_no_inflight_guard (c : Conc)
    (hn : c.mic.isNodeEnvironment = false)
    (hr : c.mic.ctx.state = .running)
    (hw : c.mic.workletSupported = true) :
    (startAttach c).inflight = c.inflight ++ [.awaitingModule] ∧
    (startAttach c).results = c.results := by
  unfold startAttach
  simp [hn, hr, hw]

/-- Witness for C7 (amended): the second call, issued while the first is in
flight, itself proceeds to the module-load await and settles nothing. -/
theorem attach_has_no_inflight_guard_witness :
    (startAttach (startAttach concIdle)).inflight
      = (startAttach concIdle).inflight ++ [AttachPhase.awaitingModule] ∧
    (startAttach (startAttach concIdle)).results
      = (startAttach concIdle).results :=
  attach_has_no_inflight_guard (startAttach concIdle)
    (by decide) (by decide) (by decide)

/-- Witness for C6: a browser session whose context lacks `audioWorklet`
(worklet unsupported) constructed with the fallback disabled; the attach
rejects with the fallback-disabled message, dispatches it as an `error`
event, and constructs no ScriptProcessor. -/
theorem fallback_disabled_rejects_attach_witness :
    ∃ m, (setStream (init ⟨false, ⟨.running, 44100, false⟩⟩
        { allowScriptProcessorFallback := false }) envOk).2.1 = .error m ∧
      (setStream (init ⟨false, ⟨.running, 44100, false⟩⟩
        { allowScriptProcessorFallback := false }) envOk).2.2 = [Ev.error m] ∧
      mentionsFallbackDisabled m = true ∧
      (setStream (init ⟨false, ⟨.running, 44100, false⟩⟩
        { allowScriptProcessorFallback := false }) envOk).1.spCreated
        = (init ⟨false, ⟨.running, 44100, false⟩⟩
            { allowScriptProcessorFallback := false }).spCreated :=
  fallback_disabled_rejects_attach
    (init ⟨false, ⟨.running, 44100, false⟩⟩
      { allowScriptProcessorFallback := false }) envOk
    (by decide) (by decide) (by decide) (by decide) (by decide)
    (Or.inl (by decide))

end MicDrop
